import Mathlib

/-!
# Verification of the ACI 318 beam-analysis engine

Shallow embedding of the beam-section calculation core
(`src/utils/beamCalculations.ts` together with the record types of
`src/types/beam.ts`) and proofs of the specified properties.

Modelling conventions:
* JavaScript `number` values are modelled as exact rationals `ℚ`.  The only
  place the engine deliberately produces a non-finite value is
  `calculateTensionStrain`, which returns `Infinity` when `c ≤ 0`; that value
  flows into the ordered comparisons of `calculatePhi`, `classifySection` and
  the `steelYields` check.  We therefore model the strain value by the type
  `JSVal` (a rational or positive infinity) and give it the comparison
  semantics of JavaScript's `>=`, `<=`, `<` restricted to the values that can
  actually occur (finite numbers and `+Infinity`).
* `Math.sqrt` has no exact rational counterpart, so the functions that use it
  (`calculateRhoMin`, `calculateRequiredSteel`, and `analyzeBeam` through
  them) take an explicit square-root interpretation `sq : ℚ → ℚ` as their
  first argument.  Every theorem below holds for an arbitrary interpretation,
  or states the hypotheses on `sq` that it needs.
* `Number.prototype.toFixed(3)` is modelled by `toFixed3`: round to the
  nearest thousandth, half away from zero, and print with exactly three
  decimals.  The warning texts that interpolate formatted percentages are
  built from it.
* JavaScript `Math.sqrt` of a negative number is `NaN`, which then makes
  `rho_required` a `NaN` caught by the `isNaN` guard of
  `calculateRequiredSteel`; we model that path by branching on the sign of
  the radicand before taking the square root.
-/

/-- A JavaScript number value as produced by the strain computation: either a
finite rational or positive infinity (the `c ≤ 0` sentinel). -/
inductive JSVal where
  | fin (q : ℚ) : JSVal
  | posInf : JSVal
deriving DecidableEq, Repr

/-- JavaScript `>=` on the values of `JSVal` (`Infinity >= x` is true for
every number `x`, and `q >= Infinity` is false for finite `q`). -/
def JSVal.jge : JSVal → JSVal → Bool
  | .posInf, _ => true
  | .fin _, .posInf => false
  | .fin a, .fin b => a ≥ b

/-- JavaScript `<=` on the values of `JSVal`. -/
def JSVal.jle : JSVal → JSVal → Bool
  | _, .posInf => true
  | .posInf, .fin _ => false
  | .fin a, .fin b => a ≤ b

/-- JavaScript `<` on the values of `JSVal`. -/
def JSVal.jlt : JSVal → JSVal → Bool
  | .posInf, _ => false
  | .fin _, .posInf => true
  | .fin a, .fin b => a < b

/-- Record `BeamInput` of `src/types/beam.ts`: geometry, material properties and
reinforcement areas. -/
structure BeamInput where
  b : ℚ
  h : ℚ
  d : ℚ
  d_prime : ℚ
  fc : ℚ
  fy : ℚ
  Es : ℚ
  As : ℚ
  As_prime : ℚ
deriving DecidableEq, Repr

/-- The section classification returned by `classifySection`. -/
inductive SectionType where
  | tensionControlled
  | transition
  | compressionControlled
deriving DecidableEq, Repr

/-- Record `BeamResults` of `src/types/beam.ts`. -/
structure BeamResults where
  beta1 : ℚ
  a : ℚ
  c : ℚ
  epsilon_t : JSVal
  epsilon_y : ℚ
  epsilon_cu : ℚ
  rho : ℚ
  rho_b : ℚ
  rho_max : ℚ
  rho_min : ℚ
  Mn : ℚ
  Mn_kip_ft : ℚ
  phi : ℚ
  phiMn : ℚ
  phiMn_kip_ft : ℚ
  sectionType : SectionType
  isAdequatelyReinforced : Bool
  isNotOverReinforced : Bool
  steelYields : Bool
  warnings : List String
deriving DecidableEq, Repr

/-- Constant `EPSILON_CU`: ultimate concrete strain per ACI 318. -/
def EPSILON_CU : ℚ := 0.003

/-- Function `calculateBeta1`: stress-block depth factor per ACI 318-19 22.2.2.4.3. -/
def calculateBeta1 (fc : ℚ) : ℚ :=
  if fc ≤ 4000 then 0.85
  else max (0.85 - 0.05 * ((fc - 4000) / 1000)) 0.65

/-- Function `calculateEpsilonY`: yield strain of steel. -/
def calculateEpsilonY (fy Es : ℚ) : ℚ := fy / Es

/-- Function `calculateStressBlockDepth`: `a = As * fy / (0.85 * fc * b)`. -/
def calculateStressBlockDepth (As fy fc b : ℚ) : ℚ :=
  (As * fy) / (0.85 * fc * b)

/-- Function `calculateNeutralAxisDepth`: `c = a / β1`. -/
def calculateNeutralAxisDepth (a beta1 : ℚ) : ℚ := a / beta1

/-- Function `calculateTensionStrain`: `εt = εcu * (d - c) / c`, with the `c ≤ 0`
sentinel returning `Infinity`.  The source gives `epsilon_cu` the default
value `EPSILON_CU`; here it is always passed explicitly. -/
def calculateTensionStrain (d c epsilon_cu : ℚ) : JSVal :=
  if c ≤ 0 then .posInf
  else .fin (epsilon_cu * (d - c) / c)

/-- Function `calculatePhi`: strength reduction factor per ACI 318-19 Table 21.2.2.
In the source the first guard is `epsilon_t >= 0.005`, which is true when
`epsilon_t` is `Infinity`; the match on `.posInf` reproduces that. -/
def calculatePhi (epsilon_t : JSVal) (epsilon_y : ℚ) : ℚ :=
  match epsilon_t with
  | .posInf => 0.90
  | .fin t =>
    if t ≥ 0.005 then 0.90
    else if t ≤ epsilon_y then 0.65
    else 0.65 + 0.25 * (t - epsilon_y) / (0.005 - epsilon_y)

/-- Function `classifySection`: same branch structure as `calculatePhi` (an
`epsilon_t` of `Infinity` satisfies the first guard `epsilon_t >= 0.005`). -/
def classifySection (epsilon_t : JSVal) (epsilon_y : ℚ) : SectionType :=
  match epsilon_t with
  | .posInf => .tensionControlled
  | .fin t =>
    if t ≥ 0.005 then .tensionControlled
    else if t ≤ epsilon_y then .compressionControlled
    else .transition

/-- Function `calculateRhoBalanced`: balanced reinforcement ratio. -/
def calculateRhoBalanced (fc fy beta1 epsilon_y epsilon_cu : ℚ) : ℚ :=
  (0.85 * beta1 * fc / fy) * (epsilon_cu / (epsilon_cu + epsilon_y))

/-- Function `calculateRhoMax`: maximum reinforcement ratio, using the fixed strain
threshold `epsilon_t_min = 0.004`. -/
def calculateRhoMax (fc fy beta1 epsilon_cu : ℚ) : ℚ :=
  (0.85 * beta1 * fc / fy) * (epsilon_cu / (epsilon_cu + 0.004))

/-- Function `calculateRhoMin`: `ρmin = max(3 √fc / fy, 200 / fy)`; `sq` interprets
`Math.sqrt`. -/
def calculateRhoMin (sq : ℚ → ℚ) (fc fy : ℚ) : ℚ :=
  max ((3 * sq fc) / fy) (200 / fy)

/-- Function `calculateMn`: `Mn = As * fy * (d - a/2)`. -/
def calculateMn (As fy d a : ℚ) : ℚ := As * fy * (d - a / 2)

/-- Function `convertToKipFt`: lb-in to kip-ft. -/
def convertToKipFt (moment_lb_in : ℚ) : ℚ := moment_lb_in / (1000 * 12)

/-- Pad a natural number below 1000 to three digits. -/
def padZeros3 (n : ℕ) : String :=
  if n < 10 then "00" ++ toString n
  else if n < 100 then "0" ++ toString n
  else toString n

/-- Model of JavaScript `toFixed(3)`: round to the nearest thousandth (half
away from zero) and print with exactly three decimals. -/
def toFixed3 (q : ℚ) : String :=
  let sign := if q < 0 then "-" else ""
  let n : ℕ := (|q| * 1000 + 1 / 2).floor.toNat
  sign ++ toString (n / 1000) ++ "." ++ padZeros3 (n % 1000)

/-- Warning 1 of `analyzeBeam`: tension steel does not yield. -/
def warnNoYield : String :=
  "Warning: Tension steel does not yield at ultimate. Section is over-reinforced."

/-- Warning 2 of `analyzeBeam`: reinforcement below the minimum ratio, with
the actual and minimum ratios interpolated as percentages. -/
def warnMinRho (rho rho_min : ℚ) : String :=
  "Warning: Reinforcement ratio (" ++ toFixed3 (rho * 100) ++
    "%) is less than minimum (" ++ toFixed3 (rho_min * 100) ++
    "%). Per ACI 318, As,min requirements may govern."

/-- Warning 3 of `analyzeBeam`: reinforcement above the maximum ratio. -/
def warnMaxRho (rho rho_max : ℚ) : String :=
  "Warning: Reinforcement ratio (" ++ toFixed3 (rho * 100) ++
    "%) exceeds maximum (" ++ toFixed3 (rho_max * 100) ++
    "%). Section may not have adequate ductility."

/-- Warning 4 of `analyzeBeam`: compression-controlled section. -/
def warnCompressionControlled : String :=
  "Warning: Section is compression-controlled. Consider reducing reinforcement for better ductility."

/-- Warning 5 of `analyzeBeam`: transition-zone note. -/
def warnTransition : String :=
  "Note: Section is in the transition zone between tension and compression controlled."

/-- Warning 6 of `analyzeBeam`: stress block deeper than the effective
depth. -/
def warnStressBlockDeep : String :=
  "Error: Stress block depth exceeds effective depth. Check input values."

/-- Warning 7 of `analyzeBeam`: neutral axis at or below the tension
steel. -/
def warnNeutralAxisLow : String :=
  "Error: Neutral axis is at or below tension steel. Invalid configuration."

/-- Function `analyzeBeam`: the orchestration function.  The sequence of conditional
`warnings.push` calls of the source is modelled by concatenating the
singleton lists of the messages whose trigger holds, in the source order. -/
def analyzeBeam (sq : ℚ → ℚ) (input : BeamInput) : BeamResults :=
  let b := input.b
  let d := input.d
  let fc := input.fc
  let fy := input.fy
  let Es := input.Es
  let As := input.As
  let beta1 := calculateBeta1 fc
  let epsilon_y := calculateEpsilonY fy Es
  let a := calculateStressBlockDepth As fy fc b
  let c := calculateNeutralAxisDepth a beta1
  let epsilon_t := calculateTensionStrain d c EPSILON_CU
  let phi := calculatePhi epsilon_t epsilon_y
  let sectionType := classifySection epsilon_t epsilon_y
  let rho := As / (b * d)
  let rho_b := calculateRhoBalanced fc fy beta1 epsilon_y EPSILON_CU
  let rho_max := calculateRhoMax fc fy beta1 EPSILON_CU
  let rho_min := calculateRhoMin sq fc fy
  let Mn := calculateMn As fy d a
  let phiMn := phi * Mn
  let steelYields := epsilon_t.jge (.fin epsilon_y)
  let isAdequatelyReinforced := decide (rho ≥ rho_min)
  let isNotOverReinforced := decide (rho ≤ rho_max)
  let warnings :=
    (if steelYields then [] else [warnNoYield]) ++
    (if isAdequatelyReinforced then [] else [warnMinRho rho rho_min]) ++
    (if isNotOverReinforced then [] else [warnMaxRho rho rho_max]) ++
    (if sectionType = .compressionControlled then [warnCompressionControlled] else []) ++
    (if sectionType = .transition then [warnTransition] else []) ++
    (if a > d then [warnStressBlockDeep] else []) ++
    (if c ≥ d then [warnNeutralAxisLow] else [])
  { beta1 := beta1
    a := a
    c := c
    epsilon_t := epsilon_t
    epsilon_y := epsilon_y
    epsilon_cu := EPSILON_CU
    rho := rho
    rho_b := rho_b
    rho_max := rho_max
    rho_min := rho_min
    Mn := Mn
    Mn_kip_ft := convertToKipFt Mn
    phi := phi
    phiMn := phiMn
    phiMn_kip_ft := convertToKipFt phiMn
    sectionType := sectionType
    isAdequatelyReinforced := isAdequatelyReinforced
    isNotOverReinforced := isNotOverReinforced
    steelYields := steelYields
    warnings := warnings }

/-- Boolean test that the first character list is a prefix of the second,
used to state the `"Error"` / `"Note:"` message-prefix convention. -/
def listPrefixChars : List Char → List Char → Bool
  | [], _ => true
  | _ :: _, [] => false
  | a :: as, b :: bs => a = b && listPrefixChars as bs

/-- Predicate `strBeginsWith p s` holds when the string `s` begins with `p`. -/
def strBeginsWith (p s : String) : Bool := listPrefixChars p.data s.data

/-- The severity marker distinguishing error-class messages. -/
def errorWord : String := "Error"

/-- The marker beginning the transition-zone informational note. -/
def noteWord : String := "Note:"

/-- The result record of `calculateRequiredSteel`. -/
structure RequiredSteelResult where
  As_required : ℚ
  isValid : Bool
  message : String
deriving DecidableEq, Repr

/-- Message of the infeasible branch of `calculateRequiredSteel`. -/
def msgCannotCarry : String :=
  "Section cannot carry the applied moment. Increase section size."

/-- Message of the over-maximum branch of `calculateRequiredSteel`. -/
def msgExceedsMax (rho_required rho_max : ℚ) : String :=
  "Required reinforcement ratio (" ++ toFixed3 (rho_required * 100) ++
    "%) exceeds maximum (" ++ toFixed3 (rho_max * 100) ++ "%)."

/-- Function `calculateRequiredSteel`: required steel area for a target factored
moment.  In the source, a negative radicand makes `Math.sqrt` return `NaN`,
which propagates into `rho_required` and is caught by the `isNaN` guard;
here that path is the explicit `radicand < 0` branch taken before `sq` is
applied. -/
def calculateRequiredSteel (sq : ℚ → ℚ) (Mu b d fc fy : ℚ) :
    RequiredSteelResult :=
  let phi : ℚ := 0.9
  let R_n := Mu / (phi * b * d * d)
  let radicand := 1 - (2 * R_n) / (0.85 * fc)
  if radicand < 0 then
    { As_required := 0, isValid := false, message := msgCannotCarry }
  else
    let rho_required := (0.85 * fc / fy) * (1 - sq radicand)
    if rho_required < 0 then
      { As_required := 0, isValid := false, message := msgCannotCarry }
    else
      let As_required := rho_required * b * d
      let rho_max := calculateRhoMax fc fy (calculateBeta1 fc) EPSILON_CU
      if rho_required > rho_max then
        { As_required := As_required, isValid := false
          message := msgExceedsMax rho_required rho_max }
      else
        { As_required := As_required, isValid := true, message := "OK" }

/-! ## Helper lemmas -/

/-- Lemma: `convertToKipFt` divides by `12000 = 1000 × 12`. -/
lemma convertToKipFt_eq (m : ℚ) : convertToKipFt m = m / 12000 := by
  unfold convertToKipFt; norm_num

/-- Lemma: `calculateBeta1` never goes below the `0.65` floor. -/
lemma le_calculateBeta1 (fc : ℚ) : 0.65 ≤ calculateBeta1 fc := by
  unfold calculateBeta1
  split
  · norm_num
  · exact le_max_right _ _

/-- Lemma: `calculateBeta1` is positive. -/
lemma calculateBeta1_pos (fc : ℚ) : 0 < calculateBeta1 fc :=
  lt_of_lt_of_le (by norm_num) (le_calculateBeta1 fc)

/-! ## Claim theorems -/

/-- Claim C1: for every `BeamInput`, the derived mechanics fields of
`analyzeBeam` satisfy the closed-form equations
`a = (As × fy)/(0.85 × fc × b)`, `c = a / beta1`,
`Mn = As × fy × (d − a/2)`, `phiMn = phi × Mn`, `Mn_kip_ft = Mn / 12000`
and `phiMn_kip_ft = phiMn / 12000`. -/
theorem analyzeBeam_closed_form_equations (sq : ℚ → ℚ) (input : BeamInput) :
    (analyzeBeam sq input).a = (input.As * input.fy) / (0.85 * input.fc * input.b) ∧
    (analyzeBeam sq input).c = (analyzeBeam sq input).a / (analyzeBeam sq input).beta1 ∧
    (analyzeBeam sq input).Mn = input.As * input.fy * (input.d - (analyzeBeam sq input).a / 2) ∧
    (analyzeBeam sq input).phiMn = (analyzeBeam sq input).phi * (analyzeBeam sq input).Mn ∧
    (analyzeBeam sq input).Mn_kip_ft = (analyzeBeam sq input).Mn / 12000 ∧
    (analyzeBeam sq input).phiMn_kip_ft = (analyzeBeam sq input).phiMn / 12000 :=
  ⟨rfl, rfl, rfl, rfl, convertToKipFt_eq _, convertToKipFt_eq _⟩

/-- Claim C2: `calculateBeta1` returns `0.85` for `fc ≤ 4000` and
`max(0.65, 0.85 − 0.05 × (fc − 4000)/1000)` otherwise; in particular
`calculateBeta1 5000 = 0.80` and `calculateBeta1 10000 = 0.65`. -/
theorem calculateBeta1_spec (fc : ℚ) :
    (fc ≤ 4000 → calculateBeta1 fc = 0.85) ∧
    (¬ fc ≤ 4000 → calculateBeta1 fc = max 0.65 (0.85 - 0.05 * ((fc - 4000) / 1000))) ∧
    calculateBeta1 5000 = 0.80 ∧ calculateBeta1 10000 = 0.65 := by
  refine ⟨fun h => ?_, fun h => ?_, by norm_num [calculateBeta1], by norm_num [calculateBeta1]⟩
  · unfold calculateBeta1
    rw [if_pos h]
  · unfold calculateBeta1
    rw [if_neg h, max_comm]

/-- Witness for C2 at `fc = 5000`: the above-4000 branch applies and the
`max` formula evaluates there. -/
theorem calculateBeta1_spec_witness :
    ¬ (5000 : ℚ) ≤ 4000 ∧
    calculateBeta1 5000 = max 0.65 (0.85 - 0.05 * (((5000 : ℚ) - 4000) / 1000)) :=
  ⟨by norm_num, (calculateBeta1_spec 5000).2.1 (by norm_num)⟩

/-- Claim C7: the boolean checks stored in a `BeamResults` produced by
`analyzeBeam` are consistent with the numeric fields of the same record:
`steelYields = (epsilon_t ≥ epsilon_y)`,
`isAdequatelyReinforced = (rho ≥ rho_min)` and
`isNotOverReinforced = (rho ≤ rho_max)`. -/
theorem analyzeBeam_check_booleans (sq : ℚ → ℚ) (input : BeamInput) :
    (analyzeBeam sq input).steelYields =
      (analyzeBeam sq input).epsilon_t.jge (.fin (analyzeBeam sq input).epsilon_y) ∧
    (analyzeBeam sq input).isAdequatelyReinforced =
      decide ((analyzeBeam sq input).rho ≥ (analyzeBeam sq input).rho_min) ∧
    (analyzeBeam sq input).isNotOverReinforced =
      decide ((analyzeBeam sq input).rho ≤ (analyzeBeam sq input).rho_max) :=
  ⟨rfl, rfl, rfl⟩

/-- Claim C10: `analyzeBeam` reads only `b`, `d`, `fc`, `fy`, `Es`, `As`;
two inputs that agree on those six fields produce identical results in every
field, whatever their `h`, `d_prime`, `As_prime`. -/
theorem analyzeBeam_ignores_inactive_fields (sq : ℚ → ℚ) (i1 i2 : BeamInput)
    (hb : i1.b = i2.b) (hd : i1.d = i2.d) (hfc : i1.fc = i2.fc)
    (hfy : i1.fy = i2.fy) (hEs : i1.Es = i2.Es) (hAs : i1.As = i2.As) :
    analyzeBeam sq i1 = analyzeBeam sq i2 := by
  unfold analyzeBeam
  rw [hb, hd, hfc, hfy, hEs, hAs]

/-- Witness for C10: two concrete inputs differing in `h`, `d_prime` and
`As_prime` yield equal results. -/
theorem analyzeBeam_ignores_inactive_fields_witness :
    (⟨12, 24, 21.5, 2.5, 4000, 60000, 29000000, 3, 0⟩ : BeamInput).h ≠
      (⟨12, 30, 21.5, 5, 4000, 60000, 29000000, 3, 1⟩ : BeamInput).h ∧
    analyzeBeam (fun q => q) ⟨12, 24, 21.5, 2.5, 4000, 60000, 29000000, 3, 0⟩ =
      analyzeBeam (fun q => q) ⟨12, 30, 21.5, 5, 4000, 60000, 29000000, 3, 1⟩ :=
  ⟨by norm_num, analyzeBeam_ignores_inactive_fields _ _ _ rfl rfl rfl rfl rfl rfl⟩

/-- Claim C3: `calculatePhi` and `classifySection` agree branch by branch:
`epsilon_t ≥ 0.005` gives tension-controlled and `phi = 0.90`; otherwise
`epsilon_t ≤ epsilon_y` gives compression-controlled and `phi = 0.65`;
otherwise the section is in transition with the interpolated `phi`. -/
theorem phi_and_classification_agree (t : JSVal) (y : ℚ) :
    (t.jge (.fin 0.005) = true →
      classifySection t y = .tensionControlled ∧ calculatePhi t y = 0.90) ∧
    (t.jge (.fin 0.005) = false → t.jle (.fin y) = true →
      classifySection t y = .compressionControlled ∧ calculatePhi t y = 0.65) ∧
    (t.jge (.fin 0.005) = false → t.jle (.fin y) = false →
      ∃ tq : ℚ, t = .fin tq ∧ classifySection t y = .transition ∧
        calculatePhi t y = 0.65 + 0.25 * (tq - y) / (0.005 - y)) := by
  cases t with
  | posInf =>
    exact ⟨fun _ => ⟨rfl, rfl⟩, fun h => absurd h (by simp [JSVal.jge]),
      fun h => absurd h (by simp [JSVal.jge])⟩
  | fin tq =>
    refine ⟨fun h => ?_, fun h h2 => ?_, fun h h2 => ?_⟩
    · have ht : tq ≥ 0.005 := by simpa [JSVal.jge] using h
      simp [classifySection, calculatePhi, ht]
    · have ht : ¬ tq ≥ 0.005 := by simpa [JSVal.jge] using h
      have ht2 : tq ≤ y := by simpa [JSVal.jle] using h2
      simp [classifySection, calculatePhi, ht, ht2]
    · have ht : ¬ tq ≥ 0.005 := by simpa [JSVal.jge] using h
      have ht2 : ¬ tq ≤ y := by simpa [JSVal.jle] using h2
      exact ⟨tq, rfl, by simp [classifySection, ht, ht2],
        by simp [calculatePhi, ht, ht2]⟩

/-- Witness for C3 in the transition branch, at `epsilon_t = 0.004`,
`epsilon_y = 0.002`. -/
theorem phi_and_classification_agree_witness :
    JSVal.jge (.fin 0.004) (.fin 0.005) = false ∧
    JSVal.jle (.fin 0.004) (.fin 0.002) = false ∧
    (∃ tq : ℚ, JSVal.fin 0.004 = .fin tq ∧
      classifySection (.fin 0.004) 0.002 = .transition ∧
      calculatePhi (.fin 0.004) 0.002 = 0.65 + 0.25 * (tq - 0.002) / (0.005 - 0.002)) :=
  ⟨by norm_num [JSVal.jge], by norm_num [JSVal.jle],
    (phi_and_classification_agree (.fin 0.004) 0.002).2.2
      (by norm_num [JSVal.jge]) (by norm_num [JSVal.jle])⟩

/-- Claim C4: for `epsilon_y < 0.005` the transition interpolation formula
equals `0.65` at `epsilon_t = epsilon_y` and `0.90` at `epsilon_t = 0.005`,
matching the adjacent constant branches of `calculatePhi`, so `calculatePhi`
is continuous across both branch boundaries. -/
theorem calculatePhi_transition_continuity (y : ℚ) (h : y < 0.005) :
    0.65 + 0.25 * (y - y) / (0.005 - y) = 0.65 ∧
    0.65 + 0.25 * ((0.005 : ℚ) - y) / (0.005 - y) = 0.90 ∧
    calculatePhi (.fin y) y = 0.65 ∧ calculatePhi (.fin 0.005) y = 0.90 := by
  have hne : (0.005 : ℚ) - y ≠ 0 := sub_ne_zero_of_ne (ne_of_gt h)
  refine ⟨by simp, ?_, ?_, by simp [calculatePhi]⟩
  · rw [mul_div_assoc, div_self hne]
    norm_num
  · simp [calculatePhi, not_le.mpr h]

/-- Witness for C4 at `epsilon_y = 0.002`. -/
theorem calculatePhi_transition_continuity_witness :
    (0.002 : ℚ) < 0.005 ∧ calculatePhi (.fin 0.005) 0.002 = 0.90 :=
  ⟨by norm_num, (calculatePhi_transition_continuity 0.002 (by norm_num)).2.2.2⟩

/-- Claim C8: with `b`, `d`, `fc`, `fy` fixed positive, a larger tension
steel area gives a strictly larger stress-block depth `a` and neutral-axis
depth `c`, and a strictly smaller tension strain `epsilon_t`. -/
theorem As_strict_monotonicity (b d fc fy As1 As2 : ℚ)
    (hb : 0 < b) (hd : 0 < d) (hfc : 0 < fc) (hfy : 0 < fy)
    (h1 : 0 < As1) (h12 : As1 < As2) :
    calculateStressBlockDepth As1 fy fc b < calculateStressBlockDepth As2 fy fc b ∧
    calculateNeutralAxisDepth (calculateStressBlockDepth As1 fy fc b) (calculateBeta1 fc) <
      calculateNeutralAxisDepth (calculateStressBlockDepth As2 fy fc b) (calculateBeta1 fc) ∧
    JSVal.jlt
      (calculateTensionStrain d
        (calculateNeutralAxisDepth (calculateStressBlockDepth As2 fy fc b) (calculateBeta1 fc))
        EPSILON_CU)
      (calculateTensionStrain d
        (calculateNeutralAxisDepth (calculateStressBlockDepth As1 fy fc b) (calculateBeta1 fc))
        EPSILON_CU) = true := by
  have hden : (0 : ℚ) < 0.85 * fc * b := by positivity
  have hbeta : 0 < calculateBeta1 fc := calculateBeta1_pos fc
  have haa : calculateStressBlockDepth As1 fy fc b < calculateStressBlockDepth As2 fy fc b := by
    unfold calculateStressBlockDepth
    rw [div_lt_div_iff₀ hden hden]
    exact mul_lt_mul_of_pos_right (mul_lt_mul_of_pos_right h12 hfy) hden
  have ha1pos : 0 < calculateStressBlockDepth As1 fy fc b := by
    unfold calculateStressBlockDepth
    positivity
  have hcc : calculateNeutralAxisDepth (calculateStressBlockDepth As1 fy fc b) (calculateBeta1 fc) <
      calculateNeutralAxisDepth (calculateStressBlockDepth As2 fy fc b) (calculateBeta1 fc) := by
    unfold calculateNeutralAxisDepth
    rw [div_lt_div_iff₀ hbeta hbeta]
    exact mul_lt_mul_of_pos_right haa hbeta
  have hc1 : 0 <
      calculateNeutralAxisDepth (calculateStressBlockDepth As1 fy fc b) (calculateBeta1 fc) :=
    div_pos ha1pos hbeta
  have hc2 : 0 <
      calculateNeutralAxisDepth (calculateStressBlockDepth As2 fy fc b) (calculateBeta1 fc) :=
    lt_trans hc1 hcc
  refine ⟨haa, hcc, ?_⟩
  unfold calculateTensionStrain
  rw [if_neg (not_le.mpr hc1), if_neg (not_le.mpr hc2)]
  simp only [JSVal.jlt, decide_eq_true_eq]
  rw [div_lt_div_iff₀ hc2 hc1]
  unfold EPSILON_CU
  nlinarith [mul_lt_mul_of_pos_left hcc hd, hc1, hc2]

/-- Witness for C8 at `b = 12`, `d = 21.5`, `fc = 4000`, `fy = 60000`,
`As1 = 2`, `As2 = 3`. -/
theorem As_strict_monotonicity_witness :
    ((0 : ℚ) < 12 ∧ (0 : ℚ) < 21.5 ∧ (0 : ℚ) < 4000 ∧ (0 : ℚ) < 60000 ∧
      (0 : ℚ) < 2 ∧ (2 : ℚ) < 3) ∧
    calculateStressBlockDepth 2 60000 4000 12 < calculateStressBlockDepth 3 60000 4000 12 ∧
    calculateNeutralAxisDepth (calculateStressBlockDepth 2 60000 4000 12) (calculateBeta1 4000) <
      calculateNeutralAxisDepth (calculateStressBlockDepth 3 60000 4000 12) (calculateBeta1 4000) ∧
    JSVal.jlt
      (calculateTensionStrain 21.5
        (calculateNeutralAxisDepth (calculateStressBlockDepth 3 60000 4000 12) (calculateBeta1 4000))
        EPSILON_CU)
      (calculateTensionStrain 21.5
        (calculateNeutralAxisDepth (calculateStressBlockDepth 2 60000 4000 12) (calculateBeta1 4000))
        EPSILON_CU) = true :=
  ⟨⟨by norm_num, by norm_num, by norm_num, by norm_num, by norm_num, by norm_num⟩,
    As_strict_monotonicity 12 21.5 4000 60000 2 3 (by norm_num) (by norm_num)
      (by norm_num) (by norm_num) (by norm_num) (by norm_num)⟩

/-- The warnings list of `analyzeBeam` is the concatenation, in source
order, of the seven conditional singleton messages. -/
lemma analyzeBeam_warnings_eq (sq : ℚ → ℚ) (input : BeamInput) :
    (analyzeBeam sq input).warnings =
      (if (analyzeBeam sq input).steelYields then [] else [warnNoYield]) ++
      (if (analyzeBeam sq input).isAdequatelyReinforced then [] else
        [warnMinRho (analyzeBeam sq input).rho (analyzeBeam sq input).rho_min]) ++
      (if (analyzeBeam sq input).isNotOverReinforced then [] else
        [warnMaxRho (analyzeBeam sq input).rho (analyzeBeam sq input).rho_max]) ++
      (if (analyzeBeam sq input).sectionType = .compressionControlled then
        [warnCompressionControlled] else []) ++
      (if (analyzeBeam sq input).sectionType = .transition then [warnTransition] else []) ++
      (if (analyzeBeam sq input).a > input.d then [warnStressBlockDeep] else []) ++
      (if (analyzeBeam sq input).c ≥ input.d then [warnNeutralAxisLow] else []) :=
  rfl

/-- The under-minimum warning never carries the error marker, whatever the
interpolated ratios. -/
lemma warnMinRho_not_error (x y : ℚ) : strBeginsWith errorWord (warnMinRho x y) = false := by
  unfold warnMinRho strBeginsWith errorWord
  rw [String.data_append, String.data_append, String.data_append, String.data_append]
  rfl

/-- The over-maximum warning never carries the error marker, whatever the
interpolated ratios. -/
lemma warnMaxRho_not_error (x y : ℚ) : strBeginsWith errorWord (warnMaxRho x y) = false := by
  unfold warnMaxRho strBeginsWith errorWord
  rw [String.data_append, String.data_append, String.data_append, String.data_append]
  rfl

/-- Claim C6: the warnings list of `analyzeBeam` is exactly the ordered
subsequence of the seven fixed messages, each present precisely when its
trigger condition holds, and only messages 6 and 7 begin with the word
`Error` (message 5 begins with `Note:`). -/
theorem analyzeBeam_warnings_spec (sq : ℚ → ℚ) (input : BeamInput) :
    (analyzeBeam sq input).warnings =
      (if (analyzeBeam sq input).steelYields then [] else [warnNoYield]) ++
      (if (analyzeBeam sq input).isAdequatelyReinforced then [] else
        [warnMinRho (analyzeBeam sq input).rho (analyzeBeam sq input).rho_min]) ++
      (if (analyzeBeam sq input).isNotOverReinforced then [] else
        [warnMaxRho (analyzeBeam sq input).rho (analyzeBeam sq input).rho_max]) ++
      (if (analyzeBeam sq input).sectionType = .compressionControlled then
        [warnCompressionControlled] else []) ++
      (if (analyzeBeam sq input).sectionType = .transition then [warnTransition] else []) ++
      (if (analyzeBeam sq input).a > input.d then [warnStressBlockDeep] else []) ++
      (if (analyzeBeam sq input).c ≥ input.d then [warnNeutralAxisLow] else []) ∧
    strBeginsWith errorWord warnNoYield = false ∧
    strBeginsWith errorWord
      (warnMinRho (analyzeBeam sq input).rho (analyzeBeam sq input).rho_min) = false ∧
    strBeginsWith errorWord
      (warnMaxRho (analyzeBeam sq input).rho (analyzeBeam sq input).rho_max) = false ∧
    strBeginsWith errorWord warnCompressionControlled = false ∧
    strBeginsWith errorWord warnTransition = false ∧
    strBeginsWith noteWord warnTransition = true ∧
    strBeginsWith errorWord warnStressBlockDeep = true ∧
    strBeginsWith errorWord warnNeutralAxisLow = true :=
  ⟨analyzeBeam_warnings_eq sq input, by decide, warnMinRho_not_error _ _,
    warnMaxRho_not_error _ _, by decide, by decide, by decide, by decide, by decide⟩

/-- Claim C5: with `As = 0` and positive `b`, `d`, `fc`, `fy`, `Es`,
`analyzeBeam` returns `a = 0`, `c = 0`, the `epsilon_t = +Infinity`
sentinel, `rho = 0 < rho_min`, `isAdequatelyReinforced = false`, and the
minimum-reinforcement warning is in the warnings list. -/
theorem analyzeBeam_zero_As_degenerate (sq : ℚ → ℚ) (input : BeamInput)
    (hAs : input.As = 0) (hb : 0 < input.b) (hd : 0 < input.d)
    (hfc : 0 < input.fc) (hfy : 0 < input.fy) (hEs : 0 < input.Es) :
    (analyzeBeam sq input).a = 0 ∧
    (analyzeBeam sq input).c = 0 ∧
    (analyzeBeam sq input).epsilon_t = .posInf ∧
    (analyzeBeam sq input).rho = 0 ∧
    (analyzeBeam sq input).rho < (analyzeBeam sq input).rho_min ∧
    (analyzeBeam sq input).isAdequatelyReinforced = false ∧
    warnMinRho (analyzeBeam sq input).rho (analyzeBeam sq input).rho_min ∈
      (analyzeBeam sq input).warnings := by
  have ha0 : calculateStressBlockDepth input.As input.fy input.fc input.b = 0 := by
    unfold calculateStressBlockDepth
    rw [hAs, zero_mul, zero_div]
  have hc0 : calculateNeutralAxisDepth
      (calculateStressBlockDepth input.As input.fy input.fc input.b)
      (calculateBeta1 input.fc) = 0 := by
    unfold calculateNeutralAxisDepth
    rw [ha0, zero_div]
  have het : calculateTensionStrain input.d
      (calculateNeutralAxisDepth
        (calculateStressBlockDepth input.As input.fy input.fc input.b)
        (calculateBeta1 input.fc)) EPSILON_CU = .posInf := by
    unfold calculateTensionStrain
    rw [hc0]
    simp
  have hrho : input.As / (input.b * input.d) = 0 := by
    rw [hAs, zero_div]
  have hrhomin : 0 < calculateRhoMin sq input.fc input.fy := by
    have h200 : (0 : ℚ) < 200 / input.fy := by positivity
    exact lt_of_lt_of_le h200 (le_max_right _ _)
  have hlt : input.As / (input.b * input.d) < calculateRhoMin sq input.fc input.fy := by
    rw [hrho]
    exact hrhomin
  have hflag : (analyzeBeam sq input).isAdequatelyReinforced = false :=
    decide_eq_false (not_le.mpr hlt)
  refine ⟨ha0, hc0, het, hrho, hlt, hflag, ?_⟩
  rw [analyzeBeam_warnings_eq, hflag]
  simp [List.mem_append]

/-- Witness for C5: the default section with `As` set to `0`. -/
theorem analyzeBeam_zero_As_degenerate_witness :
    ((⟨12, 24, 21.5, 2.5, 4000, 60000, 29000000, 0, 0⟩ : BeamInput).As = 0 ∧
      (0 : ℚ) < (⟨12, 24, 21.5, 2.5, 4000, 60000, 29000000, 0, 0⟩ : BeamInput).b ∧
      (0 : ℚ) < (⟨12, 24, 21.5, 2.5, 4000, 60000, 29000000, 0, 0⟩ : BeamInput).d ∧
      (0 : ℚ) < (⟨12, 24, 21.5, 2.5, 4000, 60000, 29000000, 0, 0⟩ : BeamInput).fc ∧
      (0 : ℚ) < (⟨12, 24, 21.5, 2.5, 4000, 60000, 29000000, 0, 0⟩ : BeamInput).fy ∧
      (0 : ℚ) < (⟨12, 24, 21.5, 2.5, 4000, 60000, 29000000, 0, 0⟩ : BeamInput).Es) ∧
    ((analyzeBeam (fun q => q) ⟨12, 24, 21.5, 2.5, 4000, 60000, 29000000, 0, 0⟩).a = 0 ∧
      (analyzeBeam (fun q => q) ⟨12, 24, 21.5, 2.5, 4000, 60000, 29000000, 0, 0⟩).c = 0 ∧
      (analyzeBeam (fun q => q) ⟨12, 24, 21.5, 2.5, 4000, 60000, 29000000, 0, 0⟩).epsilon_t = .posInf ∧
      (analyzeBeam (fun q => q) ⟨12, 24, 21.5, 2.5, 4000, 60000, 29000000, 0, 0⟩).rho = 0 ∧
      (analyzeBeam (fun q => q) ⟨12, 24, 21.5, 2.5, 4000, 60000, 29000000, 0, 0⟩).rho <
        (analyzeBeam (fun q => q) ⟨12, 24, 21.5, 2.5, 4000, 60000, 29000000, 0, 0⟩).rho_min ∧
      (analyzeBeam (fun q => q) ⟨12, 24, 21.5, 2.5, 4000, 60000, 29000000, 0, 0⟩).isAdequatelyReinforced = false ∧
      warnMinRho (analyzeBeam (fun q => q) ⟨12, 24, 21.5, 2.5, 4000, 60000, 29000000, 0, 0⟩).rho
          (analyzeBeam (fun q => q) ⟨12, 24, 21.5, 2.5, 4000, 60000, 29000000, 0, 0⟩).rho_min ∈
        (analyzeBeam (fun q => q) ⟨12, 24, 21.5, 2.5, 4000, 60000, 29000000, 0, 0⟩).warnings) :=
  ⟨⟨rfl, by norm_num, by norm_num, by norm_num, by norm_num, by norm_num⟩,
    analyzeBeam_zero_As_degenerate (fun q => q) _ rfl (by norm_num) (by norm_num)
      (by norm_num) (by norm_num) (by norm_num)⟩

/-- A string starting with a nonempty literal is not the empty string. -/
lemma msgExceedsMax_ne_empty (x y : ℚ) : msgExceedsMax x y ≠ "" := by
  intro h
  have h2 : (msgExceedsMax x y).data = [] := by rw [h]
  unfold msgExceedsMax at h2
  rw [String.data_append, String.data_append, String.data_append,
    String.data_append] at h2
  simp [List.append_eq_nil] at h2

/-- Claim C9: `calculateRequiredSteel` is total and follows the documented
case analysis: negative radicand or negative required ratio gives the
invalid zero-steel result with a non-empty message; a required ratio above
the freshly recomputed `rho_max` gives an invalid result that still carries
`As_required = rho_required × b × d`; otherwise the result is valid with
message `OK`. -/
theorem calculateRequiredSteel_spec (sq : ℚ → ℚ) (Mu b d fc fy : ℚ) :
    (1 - 2 * (Mu / (0.9 * b * d * d)) / (0.85 * fc) < 0 →
      calculateRequiredSteel sq Mu b d fc fy = ⟨0, false, msgCannotCarry⟩) ∧
    (¬ 1 - 2 * (Mu / (0.9 * b * d * d)) / (0.85 * fc) < 0 →
      (0.85 * fc / fy) * (1 - sq (1 - 2 * (Mu / (0.9 * b * d * d)) / (0.85 * fc))) < 0 →
      calculateRequiredSteel sq Mu b d fc fy = ⟨0, false, msgCannotCarry⟩) ∧
    (¬ 1 - 2 * (Mu / (0.9 * b * d * d)) / (0.85 * fc) < 0 →
      ¬ (0.85 * fc / fy) * (1 - sq (1 - 2 * (Mu / (0.9 * b * d * d)) / (0.85 * fc))) < 0 →
      (0.85 * fc / fy) * (1 - sq (1 - 2 * (Mu / (0.9 * b * d * d)) / (0.85 * fc))) >
        calculateRhoMax fc fy (calculateBeta1 fc) EPSILON_CU →
      calculateRequiredSteel sq Mu b d fc fy =
        ⟨(0.85 * fc / fy) * (1 - sq (1 - 2 * (Mu / (0.9 * b * d * d)) / (0.85 * fc))) * b * d,
          false,
          msgExceedsMax
            ((0.85 * fc / fy) * (1 - sq (1 - 2 * (Mu / (0.9 * b * d * d)) / (0.85 * fc))))
            (calculateRhoMax fc fy (calculateBeta1 fc) EPSILON_CU)⟩) ∧
    (¬ 1 - 2 * (Mu / (0.9 * b * d * d)) / (0.85 * fc) < 0 →
      ¬ (0.85 * fc / fy) * (1 - sq (1 - 2 * (Mu / (0.9 * b * d * d)) / (0.85 * fc))) < 0 →
      ¬ (0.85 * fc / fy) * (1 - sq (1 - 2 * (Mu / (0.9 * b * d * d)) / (0.85 * fc))) >
        calculateRhoMax fc fy (calculateBeta1 fc) EPSILON_CU →
      calculateRequiredSteel sq Mu b d fc fy =
        ⟨(0.85 * fc / fy) * (1 - sq (1 - 2 * (Mu / (0.9 * b * d * d)) / (0.85 * fc))) * b * d,
          true, "OK"⟩) ∧
    msgCannotCarry ≠ "" ∧
    msgExceedsMax
      ((0.85 * fc / fy) * (1 - sq (1 - 2 * (Mu / (0.9 * b * d * d)) / (0.85 * fc))))
      (calculateRhoMax fc fy (calculateBeta1 fc) EPSILON_CU) ≠ "" := by
  refine ⟨fun h1 => ?_, fun h1 h2 => ?_, fun h1 h2 h3 => ?_, fun h1 h2 h3 => ?_,
    by decide, msgExceedsMax_ne_empty _ _⟩
  · unfold calculateRequiredSteel
    rw [if_pos h1]
  · unfold calculateRequiredSteel
    rw [if_neg h1, if_pos h2]
  · unfold calculateRequiredSteel
    rw [if_neg h1, if_neg h2, if_pos h3]
  · unfold calculateRequiredSteel
    rw [if_neg h1, if_neg h2, if_neg h3]

/-- Witness for C9: a moment far beyond the section's capacity takes the
negative-radicand path and reports the invalid zero-steel result. -/
theorem calculateRequiredSteel_spec_witness :
    1 - 2 * ((1000000000 : ℚ) / (0.9 * 12 * 21.5 * 21.5)) / (0.85 * 4000) < 0 ∧
    calculateRequiredSteel (fun q => q) 1000000000 12 21.5 4000 60000 =
      ⟨0, false, msgCannotCarry⟩ :=
  ⟨by norm_num,
    (calculateRequiredSteel_spec (fun q => q) 1000000000 12 21.5 4000 60000).1 (by norm_num)⟩
